import Mathlib

/-!
Shallow embedding of the hyperpeer-js client engine (src/index.js).

The Hyperpeer class is an event-driven state machine.  Each definition
below translates one method or one event handler of src/index.js; the
line numbers in the comments refer to that file.  Event emission is
synchronous in EventEmitter2, so the full cascade triggered by one
inbound message or one method call is modelled as a single function on
an explicit state record.
-/

namespace Hyperpeer

/-- The values of `Hyperpeer.states` (index.js 443-452). -/
inductive HPState where
  | STARTING
  | ONLINE
  | CONNECTING
  | CONNECTED
  | DISCONNECTING
  | CLOSING
  | CLOSED
  | LISTENING
  deriving DecidableEq, Repr

/-- The string value of each state constant (index.js 443-452). -/
def stateStr : HPState → String
  | .STARTING => "starting"
  | .ONLINE => "online"
  | .CONNECTING => "connecting"
  | .CONNECTED => "connected"
  | .DISCONNECTING => "disconnecting"
  | .CLOSING => "closing"
  | .CLOSED => "closed"
  | .LISTENING => "listening"

/-- The `name` field of the three error classes (index.js 11-50):
`HyperpeerError` is the base class used directly for bad-state
rejections; the spec calls that variant BadStateError. -/
inductive ErrName where
  | Hyperpeer
  | Signaling
  | PeerConnection
  deriving DecidableEq, Repr

/-- JSON.stringify of a string value, as used on the `data` argument in
the HyperpeerError constructor (index.js 14); escaping of inner quotes
is elided because no modelled payload contains one. -/
def jsonStr (s : String) : String := "\"" ++ s ++ "\""

/-- An engine error value: `name`, `code`, `msg` and optional `data`
(index.js 11-22). -/
structure HPError where
  name : ErrName
  code : String
  msg : String
  data : Option String
  deriving DecidableEq, Repr

/-- The HyperpeerError constructor (index.js 12-21): when `data` is
present, its stringification is appended to the message. -/
def mkError (name : ErrName) (code msg : String) (data : Option String) : HPError :=
  { name := name
    code := code
    msg := match data with
           | some d => msg ++ jsonStr d
           | none => msg
    data := data }

/-- The bad-state rejection built by connectTo, acceptConnection,
listenConnections and send (index.js 260, 283, 296, 335):
`new HyperpeerError` with code ERR_BAD_STATE and a message naming the
current state and the expected one. -/
def badState (cur expected : HPState) : HPError :=
  mkError .Hyperpeer "ERR_BAD_STATE"
    ("Current state is: " ++ stateStr cur ++ ", it should be " ++ stateStr expected) none

/-- Synchronous guard of `connectTo` (index.js 258-261): outside ONLINE it
rejects with ERR_BAD_STATE and the state is untouched; otherwise the guard
passes (the transition to CONNECTING happens later, after the pair message
is sent). -/
def connectToGuard (s : HPState) : Option HPError × HPState :=
  if s ≠ .ONLINE then (some (badState s .ONLINE), s) else (none, s)

/-- Synchronous guard of `acceptConnection` (index.js 281-286): outside
CONNECTING it rejects with ERR_BAD_STATE and the state is untouched. -/
def acceptConnectionGuard (s : HPState) : Option HPError × HPState :=
  if s ≠ .CONNECTING then (some (badState s .CONNECTING), s) else (none, s)

/-- The whole synchronous body of `listenConnections` (index.js 294-300):
outside ONLINE it rejects with ERR_BAD_STATE and the state is untouched;
in ONLINE it moves to LISTENING and resolves. -/
def listenConnectionsStep (s : HPState) : Option HPError × HPState :=
  if s ≠ .ONLINE then (some (badState s .ONLINE), s) else (none, .LISTENING)

/-- Synchronous guard of `send` (index.js 333-339): outside CONNECTED it
rejects with ERR_BAD_STATE and the state is untouched; in CONNECTED the
payload goes out on the data channel and the state is untouched. -/
def sendGuard (s : HPState) : Option HPError × HPState :=
  if s ≠ .CONNECTED then (some (badState s .CONNECTED), s) else (none, s)

/-- Outcome of the synchronous part of `disconnect` (index.js 308-324). -/
structure DisconnectOut where
  resolvedImmediately : Bool
  sentUnpair : Bool
  readyState : HPState
  emittedDisconnect : Bool
  deriving DecidableEq, Repr

/-- The synchronous part of `disconnect` (index.js 308-324): in any state
other than CONNECTED or CONNECTING it resolves at once, sends nothing,
emits nothing and leaves the state alone; in CONNECTED or CONNECTING it
sends `unpair` via `_unpair()` and waits for the relay status reply. -/
def disconnectStep (s : HPState) : DisconnectOut :=
  if s ≠ .CONNECTED ∧ s ≠ .CONNECTING then
    { resolvedImmediately := true, sentUnpair := false, readyState := s
      emittedDisconnect := false }
  else
    { resolvedImmediately := false, sentUnpair := true, readyState := s
      emittedDisconnect := false }

/-- The argument `connectTo` passes to `_negotiate` (index.js 269): the
call is `this._negotiate()`, so `initiator` is undefined, i.e. falsy. -/
def connectToNegotiateArg : Bool := false

/-- The argument `acceptConnection` passes to `_negotiate`
(index.js 285): the call is `this._negotiate(true)`. -/
def acceptConnectionNegotiateArg : Bool := true

/-- The negotiation timer in milliseconds (index.js 357):
`initiator ? 5000 : this.connectionTimeout * 1000`. -/
def negotiationTimeoutMs (initiator : Bool) (connectionTimeout : Nat) : Nat :=
  if initiator then 5000 else connectionTimeout * 1000

/-- Default of `options.connectionTimeout` (index.js 101). -/
def defaultConnectionTimeout : Nat := 15

/-- Listener context while a `server.status` message is handled.
`peerConnection` is whether `this.peerConnection` is non-null;
`connectToWaiting` is whether the once-listeners of a pending
`connectTo` call are installed (index.js 266-270); `negotiateWaiting`
is whether the once-listener on "disconnection" installed by
`_negotiate` is active (index.js 377-383). -/
structure StatusCtx where
  readyState : HPState
  peerConnection : Bool
  connectToWaiting : Bool
  negotiateWaiting : Bool
  deriving DecidableEq, Repr

/-- The rejection built at index.js 379. -/
def connectionRefused : HPError :=
  mkError .PeerConnection "ERR_CONNECTION_REFUSED" "Connection refused or canceled" none

/-- Synchronous cascade of an emission on the topic `disconnection`: listeners run in
registration order.  First the persistent self-listener (index.js
173-177) sets the state to ONLINE when no peer connection exists; then,
when a negotiation is active, its once-listener (index.js 377-383)
rejects the negotiation promise with ERR_CONNECTION_REFUSED if the state
is still CONNECTING, moves to DISCONNECTING and destroys the transport.
Returns the resulting state, the rejection delivered to the pending
promise, and the number of destroy calls performed. -/
def emitDisconnection (ctx : StatusCtx) : HPState × Option HPError × Nat :=
  let rs1 := if ¬ctx.peerConnection then HPState.ONLINE else ctx.readyState
  if ctx.negotiateWaiting then
    let rej := if rs1 = HPState.CONNECTING then some connectionRefused else none
    (HPState.DISCONNECTING, rej, 1)
  else (rs1, none, 0)

/-- Everything observable from handling one `server.status` message. -/
structure StatusOut where
  readyState : HPState
  emittedDisconnection : Bool
  emittedConnection : Option (Option String)
  connectToReject : Option HPError
  startedNegotiation : Bool
  sentUnpair : Bool
  destroyCalls : Nat
  deriving DecidableEq, Repr

/-- No-change outcome used by the branches of the status handler that do
nothing. -/
def statusNoop (ctx : StatusCtx) : StatusOut :=
  { readyState := ctx.readyState, emittedDisconnection := false
    emittedConnection := none, connectToReject := none
    startedNegotiation := false, sentUnpair := false, destroyCalls := 0 }

/-- The persistent handler of `server.status` (index.js 151-166) with
its synchronous event cascade.  On "unpaired" while CONNECTED or
CONNECTING it emits "disconnection" (cascade in `emitDisconnection`); on
"paired" while LISTENING or CONNECTING it sets CONNECTING and emits
"connection", which a pending `connectTo` answers by starting the
negotiation (index.js 267-270); on an unexpected "paired" it sends
`unpair`; every other status is ignored. -/
def onServerStatus (ctx : StatusCtx) (status : String) (remotePeerId : Option String) :
    StatusOut :=
  if status = "unpaired" then
    if ctx.readyState = .CONNECTED ∨ ctx.readyState = .CONNECTING then
      let out := emitDisconnection ctx
      { readyState := out.1, emittedDisconnection := true, emittedConnection := none
        connectToReject := out.2.1, startedNegotiation := false, sentUnpair := false
        destroyCalls := out.2.2 }
    else statusNoop ctx
  else if status = "paired" then
    if ctx.readyState = .LISTENING ∨ ctx.readyState = .CONNECTING then
      { readyState := .CONNECTING, emittedDisconnection := false
        emittedConnection := some remotePeerId, connectToReject := none
        startedNegotiation := ctx.connectToWaiting, sentUnpair := false
        destroyCalls := 0 }
    else
      { statusNoop ctx with sentUnpair := true }
  else statusNoop ctx

/-- One inbound websocket frame after the `JSON.parse` attempt of
index.js 120-126: either the parse threw (with the exception message and
the raw frame) or it produced a message object, of which the dispatch
only ever inspects the `type`, `status` and `remotePeerId` fields. -/
structure Message where
  type : String
  status : Option String
  remotePeerId : Option String
  deriving DecidableEq, Repr

inductive WsIncoming where
  | decodeFail (emsg raw : String)
  | decoded (m : Message)
  deriving DecidableEq, Repr

/-- Where `ws.onmessage` routes a frame: an `error` event, an emission on
`server.<type>`, or an emission on `peer.signal`. -/
inductive Routed where
  | errorEvent (e : HPError)
  | control (topic : String) (m : Message)
  | signal (m : Message)
  deriving DecidableEq, Repr

/-- The reserved control tags (index.js 127). -/
def serverMessages : List String := ["error", "status", "peers"]

/-- The `ws.onmessage` handler (index.js 118-133): a parse failure emits
`error` with a SignalingError built from code ERR_BAD_SIGNAL, the exception message and the raw frame
and drops the frame; a message whose type is a reserved tag goes to
`server.<type>`; everything else goes to `peer.signal`. -/
def wsOnMessage : WsIncoming → Routed
  | .decodeFail emsg raw => .errorEvent (mkError .Signaling "ERR_BAD_SIGNAL" emsg (some raw))
  | .decoded m =>
      if m.type ∈ serverMessages then .control ("server." ++ m.type) m
      else .signal m

/-- Delivery of a `peer.signal` emission: the only listener on that topic
is installed by `_negotiate` (index.js 396-399), so with no active
negotiator the emission reaches nobody and the message is dropped. -/
def deliverSignal (negotiatorActive : Bool) (m : Message) : Option Message :=
  if negotiatorActive then some m else none

/-- Everything observable from the transport error handler. -/
structure PeerErrorOut where
  rejected : Option HPError
  emittedError : Option HPError
  disconnectCalled : Bool
  deriving DecidableEq, Repr

/-- The transport `error` handler (index.js 368-375): while
the state is still CONNECTING the negotiation promise is rejected with
a PeerConnectionError of code ERR_WEBRTC_ERROR; in every other state the
same error is emitted as an `error` event instead; `disconnect()` is
called in both branches. -/
def onPeerError (s : HPState) (emsg : String) : PeerErrorOut :=
  if s = .CONNECTING then
    { rejected := some (mkError .PeerConnection "ERR_WEBRTC_ERROR" emsg none)
      emittedError := none, disconnectCalled := true }
  else
    { rejected := none
      emittedError := some (mkError .PeerConnection "ERR_WEBRTC_ERROR" emsg none)
      disconnectCalled := true }

/-- One inbound data-channel payload after the `JSON.parse` attempt of
index.js 402-408: either the parse threw, or it produced a value
(abstracted by its serialized form). -/
inductive PeerData where
  | decodeFail (emsg : String)
  | decoded (v : String)
  deriving DecidableEq, Repr

/-- Everything observable from the transport data handler. -/
structure DataOut where
  emittedError : Option HPError
  emittedData : Option String
  sessionClosed : Bool
  deriving DecidableEq, Repr

/-- The transport `data` handler (index.js 401-410): a parse
failure emits `error` with ERR_BAD_MESSAGE and returns, leaving the
session open; otherwise the parsed value is emitted as `data`.  The
handler never destroys the transport or changes the state. -/
def onPeerData : PeerData → DataOut
  | .decodeFail emsg =>
      { emittedError := some (mkError .PeerConnection "ERR_BAD_MESSAGE"
          ("Received a message with invalid format: " ++ emsg) none)
        emittedData := none, sessionClosed := false }
  | .decoded v =>
      { emittedError := none, emittedData := some v, sessionClosed := false }

/-- The slice of instance state that `close()` and the teardown handlers
read and write: the public state, whether `this.peerConnection` is
non-null, and how many times `destroy()` has been invoked on the
transport instance the reference points (or last pointed) to. -/
structure HPc where
  readyState : HPState
  peerConnection : Bool
  destroyCount : Nat
  deriving DecidableEq, Repr

/-- The `close()` method (index.js 224-230): it closes the websocket and,
when a peer connection exists, removes the `peer.*` listeners and calls
`destroy()` on it.  It assigns neither `readyState` nor
`this.peerConnection`, so the reference stays set and a repeated call
destroys the same instance again. -/
def close (st : HPc) : HPc :=
  { st with destroyCount := if st.peerConnection then st.destroyCount + 1
                            else st.destroyCount }

/-- The `ws.onclose` handler (index.js 137-141): sets the state to CLOSED
and emits `close`, from any prior state. -/
def wsOnClose (st : HPc) : HPc :=
  { st with readyState := .CLOSED }

/-- The transport close-event handler (index.js 412-417) with its
synchronous cascade: it emits `disconnect`, whose persistent
self-listener (index.js 167-169) unconditionally sets the state to
ONLINE, then clears the timer and nulls `this.peerConnection`. -/
def onPeerClose (st : HPc) : HPc :=
  { readyState := .ONLINE, peerConnection := false, destroyCount := st.destroyCount }

/-- The readyState of the underlying websocket as tested by `_send`
(index.js 190). -/
inductive WsReady where
  | CONNECTING
  | OPEN
  | CLOSING
  | CLOSED
  deriving DecidableEq, Repr

/-- The `_send` method (index.js 188-197): when the websocket is not OPEN
it rejects with a SignalingError of code ERR_WS_ERROR whose message names the
unsent message;
otherwise the message goes out and the promise resolves.  The message is
abstracted by its serialized form. -/
def sendToServer (ws : WsReady) (m : String) : Except HPError Unit :=
  if ws ≠ .OPEN then
    .error (mkError .Signaling "ERR_WS_ERROR"
      ("Not connected to signaling server. Message not sent: " ++ m) none)
  else .ok ()

/-- The first step of `getPeers` (index.js 238-249): the method performs
no readyState check at all, whatever the instance state; it starts by
sending the listPeers message through `_send`. -/
def getPeersFirstStep (s : HPState) (ws : WsReady) : Except HPError Unit :=
  sendToServer ws "listPeers"

/-- The relay error rejected by the first step of `getPeers` when the
websocket is not open (index.js 191 with the listPeers message). -/
def wsErrListPeers : HPError :=
  mkError .Signaling "ERR_WS_ERROR"
    ("Not connected to signaling server. Message not sent: " ++ "listPeers") none

end Hyperpeer

open Hyperpeer

/-- Claim C1, counterexample.  A `connectTo` call is pending in state
CONNECTING with its once-listeners installed, no transport and no active
negotiator.  A relay status response of "unpaired" reverts the state to
ONLINE but delivers no rejection at all to the pending promise, and a
status of "busy" changes nothing: no SignalingError with code
CANNOT_PAIR (a code that appears nowhere in the engine) is ever
produced. -/
theorem connectTo_no_cannot_pair_rejection :
    (onServerStatus ⟨HPState.CONNECTING, false, true, false⟩ "unpaired" none).connectToReject
      = none
    ∧ (onServerStatus ⟨HPState.CONNECTING, false, true, false⟩ "unpaired" none).readyState
      = HPState.ONLINE
    ∧ (onServerStatus ⟨HPState.CONNECTING, false, true, false⟩ "busy" none).connectToReject
      = none
    ∧ (onServerStatus ⟨HPState.CONNECTING, false, true, false⟩ "busy" none).readyState
      = HPState.CONNECTING := by
  exact ⟨rfl, rfl, rfl, rfl⟩

/-- Claim C1, amended.  For a `connectTo` call pending in CONNECTING,
any relay status response other than "paired" leaves the promise
unsettled (no rejection, no negotiation start); a response of exactly
"unpaired" emits `disconnection` and reverts the state to ONLINE, while
every other non-"paired" status is ignored and the state stays
CONNECTING. -/
theorem connectTo_unpaired_reverts_online (status : String) (h : status ≠ "paired") :
    (onServerStatus ⟨HPState.CONNECTING, false, true, false⟩ status none).connectToReject
      = none
    ∧ (onServerStatus ⟨HPState.CONNECTING, false, true, false⟩ status none).startedNegotiation
      = false
    ∧ (onServerStatus ⟨HPState.CONNECTING, false, true, false⟩ status none).readyState
      = (if status = "unpaired" then HPState.ONLINE else HPState.CONNECTING)
    ∧ ((onServerStatus ⟨HPState.CONNECTING, false, true, false⟩ status none).emittedDisconnection
      = true ↔ status = "unpaired") := by
  by_cases hu : status = "unpaired"
  · subst hu
    exact ⟨rfl, rfl, rfl, iff_of_true rfl rfl⟩
  · refine ⟨?_, ?_, ?_, ?_⟩ <;>
      simp [onServerStatus, statusNoop, hu, h]

/-- Witness for the amended claim C1 at the concrete status
"unpaired". -/
theorem connectTo_unpaired_reverts_online_witness :
    (onServerStatus ⟨HPState.CONNECTING, false, true, false⟩ "unpaired" none).connectToReject
      = none
    ∧ (onServerStatus ⟨HPState.CONNECTING, false, true, false⟩ "unpaired" none).startedNegotiation
      = false
    ∧ (onServerStatus ⟨HPState.CONNECTING, false, true, false⟩ "unpaired" none).readyState
      = (if "unpaired" = "unpaired" then HPState.ONLINE else HPState.CONNECTING)
    ∧ ((onServerStatus ⟨HPState.CONNECTING, false, true, false⟩ "unpaired" none).emittedDisconnection
      = true ↔ "unpaired" = "unpaired") :=
  connectTo_unpaired_reverts_online "unpaired" (by decide)

/-- Claim C2, counterexample.  With the default timeout configuration,
the side that called `connectTo` (which invokes `_negotiate` with no
argument) runs a 15000 ms timer, not the fixed 5000 ms the claim gives
it; the side that called `acceptConnection` (which invokes
`_negotiate(true)`) runs a fixed 5000 ms timer even when the configured
timeout is 30 s, not the configurable timer the claim gives it. -/
theorem negotiation_timeout_roles_swapped :
    negotiationTimeoutMs connectToNegotiateArg defaultConnectionTimeout = 15000
    ∧ negotiationTimeoutMs connectToNegotiateArg defaultConnectionTimeout ≠ 5000
    ∧ negotiationTimeoutMs acceptConnectionNegotiateArg defaultConnectionTimeout = 5000
    ∧ negotiationTimeoutMs acceptConnectionNegotiateArg 30 = 5000 := by
  decide

/-- Claim C2, amended.  The fixed short 5 s timer belongs to the side
that called `acceptConnection` (it passes true to `_negotiate`, so its
transport is constructed in initiator mode); the side that called
`connectTo` passes no flag and gets the configurable timer,
connectionTimeout seconds with default 15. -/
theorem negotiation_timeout_by_role (ct : Nat) :
    negotiationTimeoutMs connectToNegotiateArg ct = ct * 1000
    ∧ negotiationTimeoutMs acceptConnectionNegotiateArg ct = 5000
    ∧ defaultConnectionTimeout = 15 :=
  ⟨rfl, rfl, rfl⟩

/-- Claim C3, counterexample.  From ONLINE with a live transport,
`close()` itself leaves the state at ONLINE, neither CLOSING nor CLOSED;
the state becomes CLOSED only when the websocket close handler runs, and
it jumps there directly without passing through CLOSING; moreover CLOSED
is not terminal: a transport close event processed afterwards moves the
state back to ONLINE. -/
theorem close_does_not_reach_closing :
    (close ⟨HPState.ONLINE, true, 0⟩).readyState = HPState.ONLINE
    ∧ (close ⟨HPState.ONLINE, true, 0⟩).readyState ≠ HPState.CLOSING
    ∧ (close ⟨HPState.ONLINE, true, 0⟩).readyState ≠ HPState.CLOSED
    ∧ (wsOnClose (close ⟨HPState.ONLINE, true, 0⟩)).readyState = HPState.CLOSED
    ∧ (onPeerClose ⟨HPState.CLOSED, true, 1⟩).readyState = HPState.ONLINE := by
  decide

/-- Claim C3, amended.  `close()` may be called in every state; it closes
the websocket and destroys any live transport but does not itself change
the state; the state becomes CLOSED directly, never passing through
CLOSING, when the websocket close event fires; and CLOSED can still be
left for ONLINE when a transport close event is processed afterwards. -/
theorem close_state_behaviour (st : HPc) :
    (close st).readyState = st.readyState
    ∧ (close st).destroyCount
      = (if st.peerConnection then st.destroyCount + 1 else st.destroyCount)
    ∧ (wsOnClose st).readyState = HPState.CLOSED
    ∧ (onPeerClose st).readyState = HPState.ONLINE :=
  ⟨rfl, rfl, rfl, rfl⟩

/-- Claim C4: each of connectTo, acceptConnection, listenConnections and
send, called in a state outside its precondition, rejects synchronously
with the ERR_BAD_STATE HyperpeerError (the BadStateError of the spec)
and leaves the state unchanged. -/
theorem ops_reject_bad_state (s : HPState) :
    (s ≠ HPState.ONLINE → connectToGuard s = (some (badState s HPState.ONLINE), s))
    ∧ (s ≠ HPState.CONNECTING →
        acceptConnectionGuard s = (some (badState s HPState.CONNECTING), s))
    ∧ (s ≠ HPState.ONLINE → listenConnectionsStep s = (some (badState s HPState.ONLINE), s))
    ∧ (s ≠ HPState.CONNECTED → sendGuard s = (some (badState s HPState.CONNECTED), s))
    ∧ (badState s HPState.ONLINE).name = ErrName.Hyperpeer
    ∧ (badState s HPState.ONLINE).code = "ERR_BAD_STATE" := by
  refine ⟨fun h => ?_, fun h => ?_, fun h => ?_, fun h => ?_, rfl, rfl⟩ <;>
    simp [connectToGuard, acceptConnectionGuard, listenConnectionsStep, sendGuard, h]

/-- Witness for claim C4 in the concrete state CLOSED, outside every
precondition. -/
theorem ops_reject_bad_state_witness :
    connectToGuard HPState.CLOSED
      = (some (badState HPState.CLOSED HPState.ONLINE), HPState.CLOSED)
    ∧ acceptConnectionGuard HPState.CLOSED
      = (some (badState HPState.CLOSED HPState.CONNECTING), HPState.CLOSED)
    ∧ listenConnectionsStep HPState.CLOSED
      = (some (badState HPState.CLOSED HPState.ONLINE), HPState.CLOSED)
    ∧ sendGuard HPState.CLOSED
      = (some (badState HPState.CLOSED HPState.CONNECTED), HPState.CLOSED)
    ∧ (badState HPState.CLOSED HPState.ONLINE).code = "ERR_BAD_STATE" :=
  ⟨(ops_reject_bad_state HPState.CLOSED).1 (by decide),
   (ops_reject_bad_state HPState.CLOSED).2.1 (by decide),
   (ops_reject_bad_state HPState.CLOSED).2.2.1 (by decide),
   (ops_reject_bad_state HPState.CLOSED).2.2.2.1 (by decide),
   (ops_reject_bad_state HPState.CLOSED).2.2.2.2.2⟩

/-- Claim C5, counterexample.  With a live transport on which destroy
was never called, two consecutive `close()` calls, both before the
transport close event has been processed, invoke destroy twice on the
same transport instance: `close()` never clears the reference, only the
transport close handler does. -/
theorem double_close_double_destroy :
    (close (close ⟨HPState.CONNECTED, true, 0⟩)).destroyCount = 2
    ∧ (close (close ⟨HPState.CONNECTED, true, 0⟩)).peerConnection = true := by
  decide

/-- Claim C5, amended.  Destroy can be invoked more than once on the same
transport instance: every `close()` that still sees the reference
destroys it again, because the reference is cleared only by the
transport close handler; once that handler has run, a further `close()`
performs no destroy. -/
theorem destroy_once_only_after_release (rs : HPState) (b : Bool) (n : Nat) :
    close ⟨rs, b, n⟩ = ⟨rs, b, if b then n + 1 else n⟩
    ∧ onPeerClose ⟨rs, b, n⟩ = ⟨HPState.ONLINE, false, n⟩
    ∧ close (onPeerClose ⟨rs, b, n⟩) = ⟨HPState.ONLINE, false, n⟩ :=
  ⟨rfl, rfl, rfl⟩

/-- Claim C6: a transport error in state CONNECTING rejects the
negotiation promise with the ERR_WEBRTC_ERROR PeerConnectionError and
emits nothing, while the same error in state CONNECTED is emitted as an
`error` event instead of rejecting; in both cases a disconnect is
triggered. -/
theorem transport_error_reject_or_emit (emsg : String) :
    (onPeerError HPState.CONNECTING emsg).rejected
      = some (mkError .PeerConnection "ERR_WEBRTC_ERROR" emsg none)
    ∧ (onPeerError HPState.CONNECTING emsg).emittedError = none
    ∧ (onPeerError HPState.CONNECTING emsg).disconnectCalled = true
    ∧ (onPeerError HPState.CONNECTED emsg).rejected = none
    ∧ (onPeerError HPState.CONNECTED emsg).emittedError
      = some (mkError .PeerConnection "ERR_WEBRTC_ERROR" emsg none)
    ∧ (onPeerError HPState.CONNECTED emsg).disconnectCalled = true :=
  ⟨rfl, rfl, rfl, rfl, rfl, rfl⟩

/-- Claim C7: an undecodable relay frame is turned into an `error` event
carrying a SignalingError of code ERR_BAD_SIGNAL whose data is the raw
payload, and dropped; a decoded message whose type is one of the
reserved tags error, status, peers is routed to the matching control
topic; every other decoded message is routed to the negotiator as a
`peer.signal` emission, delivered when a negotiator is active and
silently dropped when none is. -/
theorem relay_dispatch (emsg raw : String) (m1 m2 : Message)
    (h1 : m1.type ∈ serverMessages) (h2 : m2.type ∉ serverMessages) :
    wsOnMessage (.decodeFail emsg raw)
      = .errorEvent (mkError .Signaling "ERR_BAD_SIGNAL" emsg (some raw))
    ∧ (mkError .Signaling "ERR_BAD_SIGNAL" emsg (some raw)).data = some raw
    ∧ wsOnMessage (.decoded m1) = .control ("server." ++ m1.type) m1
    ∧ wsOnMessage (.decoded m2) = .signal m2
    ∧ deliverSignal false m2 = none
    ∧ deliverSignal true m2 = some m2 := by
  refine ⟨rfl, rfl, ?_, ?_, rfl, rfl⟩
  · simp [wsOnMessage, h1]
  · simp [wsOnMessage, h2]

/-- Witness for claim C7 on a concrete status frame and a concrete
signal frame. -/
theorem relay_dispatch_witness :
    wsOnMessage (.decodeFail "Unexpected token" "garbage")
      = .errorEvent (mkError .Signaling "ERR_BAD_SIGNAL" "Unexpected token" (some "garbage"))
    ∧ (mkError .Signaling "ERR_BAD_SIGNAL" "Unexpected token" (some "garbage")).data
      = some "garbage"
    ∧ wsOnMessage (.decoded ⟨"status", some "paired", some "id2"⟩)
      = .control ("server." ++ (Message.mk "status" (some "paired") (some "id2")).type)
          ⟨"status", some "paired", some "id2"⟩
    ∧ wsOnMessage (.decoded ⟨"offer", none, none⟩) = .signal ⟨"offer", none, none⟩
    ∧ deliverSignal false ⟨"offer", none, none⟩ = none
    ∧ deliverSignal true ⟨"offer", none, none⟩ = some ⟨"offer", none, none⟩ :=
  relay_dispatch "Unexpected token" "garbage" ⟨"status", some "paired", some "id2"⟩
    ⟨"offer", none, none⟩ (by decide) (by decide)

/-- Claim C8: `disconnect()` called in any state other than CONNECTED or
CONNECTING resolves immediately, sends no unpair, changes no state and
emits no event. -/
theorem disconnect_noop_outside_session (s : HPState)
    (h1 : s ≠ HPState.CONNECTED) (h2 : s ≠ HPState.CONNECTING) :
    disconnectStep s = ⟨true, false, s, false⟩ := by
  simp [disconnectStep, h1, h2]

/-- Witness for claim C8 in the concrete state ONLINE. -/
theorem disconnect_noop_outside_session_witness :
    disconnectStep HPState.ONLINE = ⟨true, false, HPState.ONLINE, false⟩ :=
  disconnect_noop_outside_session HPState.ONLINE (by decide) (by decide)

/-- Claim C9: an inbound data-channel payload that fails to deserialize
produces an `error` event of code ERR_BAD_MESSAGE, no data event, and
leaves the session open; a well-formed payload produces exactly a `data`
event with the deserialized value. -/
theorem peer_data_bad_message (emsg v : String) :
    onPeerData (.decodeFail emsg)
      = ⟨some (mkError .PeerConnection "ERR_BAD_MESSAGE"
            ("Received a message with invalid format: " ++ emsg) none), none, false⟩
    ∧ onPeerData (.decoded v) = ⟨none, some v, false⟩
    ∧ (onPeerData (.decodeFail emsg)).sessionClosed = false :=
  ⟨rfl, rfl, rfl⟩

/-- Claim C10: whatever the engine state, the first step of `getPeers`
never rejects with a bad-state error; any rejection it produces is the
ERR_WS_ERROR SignalingError of the send path, and it occurs only when
the websocket is not open. -/
theorem getPeers_no_bad_state (s : HPState) (ws : WsReady) (e : HPError)
    (h : getPeersFirstStep s ws = Except.error e) :
    e = wsErrListPeers
    ∧ e.name = ErrName.Signaling
    ∧ e.code = "ERR_WS_ERROR"
    ∧ e.code ≠ "ERR_BAD_STATE"
    ∧ ws ≠ WsReady.OPEN := by
  by_cases hw : ws = WsReady.OPEN
  · subst hw
    simp [getPeersFirstStep, sendToServer] at h
  · unfold getPeersFirstStep sendToServer at h
    rw [if_pos hw] at h
    injection h with h
    subst h
    exact ⟨rfl, rfl, rfl, by decide, hw⟩

/-- Witness for claim C10 in the concrete state CLOSED with a closed
websocket. -/
theorem getPeers_no_bad_state_witness :
    wsErrListPeers = wsErrListPeers
    ∧ wsErrListPeers.name = ErrName.Signaling
    ∧ wsErrListPeers.code = "ERR_WS_ERROR"
    ∧ wsErrListPeers.code ≠ "ERR_BAD_STATE"
    ∧ WsReady.CLOSED ≠ WsReady.OPEN :=
  getPeers_no_bad_state HPState.CLOSED WsReady.CLOSED wsErrListPeers rfl
